import Mathlib

/-
Verification development for the hierarchical spectrum data model of the
OES-toolbox repository (src/OES_toolbox/Widgets.py, with callers in
src/OES_toolbox/toolbox.py).  The Python code is shallowly embedded:

* numpy 0-D scalars and 1-D arrays are modelled by the type Val over the
  rationals; the Python object None (which occurs both as an unset data
  buffer and as a cleared external background) is a third constructor.
* numpy elementwise arithmetic on 0-D/1-D operands, including the
  broadcasting of a length-one axis, is vzip; a shape combination on which
  numpy raises is modelled by the value none of Option.
* IEEE division producing inf, -inf or nan, followed by np.nan_to_num with
  posinf=0 and neginf=0, is modelled by the small float type FV and sanDiv.
* live object references between tree items (parent, child, external
  background) are modelled by natural-number identities; a heap of nodes is
  a function Arena from identities to node data.
* a Python method that can raise returns Option; the value none marks a
  raised exception escaping the modelled code.

Presentation-only effects of the source (icons other than the error icon,
status tips, plotting via graph.setData and add_to_graph, logging) are not
modelled; they read state but never change the data model.
-/

namespace OES


/-- Model of a numpy value as stored in the _x, _y, _internal_bg fields of
SpectrumTreeItem: a 0-D scalar, a 1-D array, or the Python object None
(initial value of _x and _y, and the cleared external background). -/
inductive Val where
  | scl (q : ℚ)
  | arr (l : List ℚ)
  | pynone
deriving DecidableEq, Repr, Inhabited

/-- Model of np.shape on a Val: a 0-D scalar and the object None have the
empty shape tuple, a 1-D array of n elements has shape (n,). -/
def npShape : Val → List Nat
  | Val.scl _ => []
  | Val.arr l => [l.length]
  | Val.pynone => []

/-- A Python value as used in the comparisons of Widgets.py line 172: either
an int literal or a shape tuple returned by np.shape. -/
inductive PyVal where
  | int (n : Int)
  | tup (l : List Nat)
deriving DecidableEq, Repr

/-- Python equality between such values: ints compare by value, tuples
elementwise; a tuple never equals an int (tuple.__eq__ on an int returns
NotImplemented and the fallback comparison is False). -/
def pyEq : PyVal → PyVal → Bool
  | PyVal.int a, PyVal.int b => a == b
  | PyVal.tup a, PyVal.tup b => a == b
  | _, _ => false

/-- Model of a numpy elementwise binary operation on 0-D/1-D operands,
with numpy broadcasting: scalars broadcast, a length-one array broadcasts
against any length, and two arrays of distinct lengths (both other than
one) raise, modelled by none.  Any operand that is the object None raises
TypeError, modelled by none. -/
def vzip (f : ℚ → ℚ → ℚ) : Val → Val → Option Val
  | Val.scl a, Val.scl b => some (Val.scl (f a b))
  | Val.scl a, Val.arr m => some (Val.arr (m.map (fun b => f a b)))
  | Val.arr l, Val.scl b => some (Val.arr (l.map (fun a => f a b)))
  | Val.arr l, Val.arr m =>
    if l.length = m.length then some (Val.arr (List.zipWith f l m))
    else if l.length = 1 then some (Val.arr (m.map (fun b => f (l.headI) b)))
    else if m.length = 1 then some (Val.arr (l.map (fun a => f a (m.headI))))
    else none
  | _, _ => none

/-- Numpy subtraction on modelled values. -/
def vsub : Val → Val → Option Val := vzip (fun a b => a - b)

/-- Numpy addition on modelled values. -/
def vadd : Val → Val → Option Val := vzip (fun a b => a + b)

/-- Elementwise application of a pure function (the calibration spline) to
a numpy value; applying it to the object None raises, modelled by none. -/
def vmapC (f : ℚ → ℚ) : Val → Option Val
  | Val.scl q => some (Val.scl (f q))
  | Val.arr l => some (Val.arr (l.map f))
  | Val.pynone => none

/-- An IEEE-style float result with rational-valued finite magnitudes:
finite, not-a-number, positive infinity or negative infinity. -/
inductive FV where
  | fin (q : ℚ)
  | nan
  | pinf
  | ninf
deriving DecidableEq, Repr

/-- IEEE division of two finite values: a zero divisor yields nan for a
zero dividend and a signed infinity otherwise; a nonzero divisor yields the
finite quotient. -/
def fdivQ (a b : ℚ) : FV :=
  if b = 0 then (if a = 0 then FV.nan else if 0 < a then FV.pinf else FV.ninf)
  else FV.fin (a / b)

/-- Model of np.nan_to_num with posinf=0 and neginf=0 (and the default
nan=0.0): every non-finite value becomes exactly 0. -/
def nanToNum : FV → ℚ
  | FV.fin q => q
  | FV.nan => 0
  | FV.pinf => 0
  | FV.ninf => 0

/-- The composite np.nan_to_num(a / b, posinf=0, neginf=0) applied to one
pair of elements. -/
def sanDiv (a b : ℚ) : ℚ := nanToNum (fdivQ a b)

/-- The possible values of the _external_bg field of SpectrumTreeItem: the
initial integer 0, the object None after clearing, or a reference to
another item (modelled by its identity). -/
inductive ExtBg where
  | val (v : Val)
  | ref (j : Nat)
deriving DecidableEq, Repr, Inhabited

/-- The per-item state of a SpectrumTreeItem relevant to the data model:
identity, label, content number, the content/file flags, the raw buffers
_x and _y, the internal and external backgrounds, the wavelength shift,
the loaded flag, and the error-icon flag set on a failed load. -/
structure NData where
  nid : Nat
  label : String
  contentNum : Option Nat
  isContent : Bool
  isFile : Bool
  x : Val
  y : Val
  internalBg : Val
  externalBg : ExtBg
  shift : ℚ
  isLoaded : Bool
  errIcon : Bool
deriving DecidableEq, Repr, Inhabited

/-- A heap of live items addressed by identity, used to dereference
external-background references. -/
def Arena : Type := Nat → NData

/-- A calibration function as consumed from the main window: a pure map on
the wavelength axis, applied elementwise. -/
def Cal : Type := ℚ → ℚ

/-- The bg property of SpectrumTreeItem (Widgets.py lines 151 to 174).
If _external_bg is the item itself the raw _y is returned (the source
comments out the subtraction of the internal background so that y - bg is
identically zero).  Otherwise the external contribution is
other._y - other._internal_bg for an item reference, or the stored plain
value (0 or None).  The contribution is added to the internal background
when its shape tuple equals the shape of _y or when the source test
np.shape(bg_ext) == 0 holds; the latter compares a tuple with the int 0
and therefore never holds. -/
def ndBg (σ : Arena) (d : NData) : Option Val :=
  match d.externalBg with
  | ExtBg.ref j =>
    if j = d.nid then some d.y
    else
      match vsub (σ j).y (σ j).internalBg with
      | none => none
      | some bgExt =>
        if npShape bgExt = npShape d.y ∨ pyEq (PyVal.tup (npShape bgExt)) (PyVal.int 0) = true
        then vadd d.internalBg bgExt
        else some d.internalBg
  | ExtBg.val v =>
    if npShape v = npShape d.y ∨ pyEq (PyVal.tup (npShape v)) (PyVal.int 0) = true
    then vadd d.internalBg v
    else some d.internalBg

/-- The bg property read through the heap at an identity. -/
def bgOf (σ : Arena) (i : Nat) : Option Val := ndBg σ (σ i)

/-- The x property (Widgets.py lines 142 to 144): the raw axis plus the
scalar wavelength shift. -/
def ndX (d : NData) : Option Val := vadd d.x (Val.scl d.shift)

/-- The x property read through the heap at an identity. -/
def xProp (σ : Arena) (i : Nat) : Option Val := ndX (σ i)

/-- The y property (Widgets.py lines 146 to 149): the raw intensity minus
the composed background; when a calibration is enabled the result is
divided elementwise by the calibration evaluated on the shifted axis and
sanitized by np.nan_to_num with posinf=0 and neginf=0. -/
def ndY (σ : Arena) (cal : Option Cal) (d : NData) : Option Val := do
  let b ← ndBg σ d
  let y0 ← vsub d.y b
  match cal with
  | none => pure y0
  | some f => do
    let xv ← ndX d
    let cv ← vmapC f xv
    vzip sanDiv y0 cv

/-- The y property read through the heap at an identity. -/
def yProp (σ : Arena) (cal : Option Cal) (i : Nat) : Option Val := ndY σ cal (σ i)

/-- Replace the wavelength shift of the item at one identity, leaving every
other field and every other item unchanged. -/
def setShift (σ : Arena) (i : Nat) (s : ℚ) : Arena :=
  Function.update σ i { σ i with shift := s }

/-- A SpectrumTreeItem together with its (exclusively owned) children, as a
tree value. -/
inductive TNode where
  | mk (d : NData) (children : List TNode)
deriving Repr, Inhabited

/-- The per-item data of the root of a tree. -/
def TNode.data : TNode → NData
  | TNode.mk d _ => d

/-- The children of the root of a tree. -/
def TNode.children : TNode → List TNode
  | TNode.mk _ cs => cs

/-- The argument of set_background after the load-and-descend prefix of the
method has run: None, a plain numpy value (internal background), or an
already resolved external item (only its data is consulted). -/
inductive BgR where
  | clear
  | val (v : Val)
  | extd (rd : NData)

/-- The value bg_values computed at a leaf by set_background (Widgets.py
line 262): 0 when clearing, the provided plain value for an internal
assignment, or bg.y - bg._internal_bg for an external item, where bg.y is
the full y property of the referenced item (so its computation can raise,
modelled by none). -/
def contribOf (σ : Arena) (cal : Option Cal) : BgR → Option Val
  | BgR.clear => some (Val.scl 0)
  | BgR.val w => some w
  | BgR.extd rd =>
    match ndY σ cal rd with
    | none => none
    | some yv => vsub yv rd.internalBg

mutual
/-- The recursive body of set_background (Widgets.py lines 244 to 286),
entered after the load-and-descend prefix resolved the argument.  On an
item with children the external reference (for an external or clearing
argument) is recorded on the container and the call recurses into every
child with the same argument.  On a leaf the contributed value is computed
first; if its shape neither equals the shape of _y nor is the empty tuple
the call returns with no state change; otherwise the external reference or
the internal background is updated.  A raise while computing the
contribution escapes the call, modelled by none.  The final plot refresh
via graph.setData is presentation and is not modelled. -/
def setBgR (σ : Arena) (cal : Option Cal) (b : BgR) : TNode → Option TNode
  | TNode.mk d [] =>
    match contribOf σ cal b with
    | none => none
    | some v =>
      if ¬ (npShape v = npShape d.y ∨ (npShape v).length = 0) then some (TNode.mk d [])
      else
        match b with
        | BgR.clear => some (TNode.mk { d with externalBg := ExtBg.val Val.pynone } [])
        | BgR.extd rd => some (TNode.mk { d with externalBg := ExtBg.ref rd.nid } [])
        | BgR.val _ => some (TNode.mk { d with internalBg := v } [])
  | TNode.mk d (c :: cs) =>
    let d2 := match b with
      | BgR.val _ => d
      | BgR.clear => { d with externalBg := ExtBg.val Val.pynone }
      | BgR.extd rd => { d with externalBg := ExtBg.ref rd.nid }
    match setBgRL σ cal b (c :: cs) with
    | none => none
    | some kids => some (TNode.mk d2 kids)

/-- Recursion of set_background over a list of children, in order; a raise
in one child escapes the whole call. -/
def setBgRL (σ : Arena) (cal : Option Cal) (b : BgR) : List TNode → Option (List TNode)
  | [] => some []
  | c :: rest =>
    match setBgR σ cal b c with
    | none => none
    | some c2 =>
      match setBgRL σ cal b rest with
      | none => none
      | some rest2 => some (c2 :: rest2)
end

mutual
/-- The specialization of set_background to the argument None, which never
raises and never rejects (the contributed value 0 has the empty shape):
the external background of the item and of every descendant is set to the
object None. -/
def clearBg : TNode → TNode
  | TNode.mk d [] => TNode.mk { d with externalBg := ExtBg.val Val.pynone } []
  | TNode.mk d (c :: cs) =>
    TNode.mk { d with externalBg := ExtBg.val Val.pynone } (clearBgL (c :: cs))

/-- The clearing recursion over a list of children. -/
def clearBgL : List TNode → List TNode
  | [] => []
  | c :: rest => clearBg c :: clearBgL rest
end

/-- The descent of set_background (Widgets.py lines 239 to 241): while the
resolved item has children, replace it by its first child. -/
def firstLeaf : TNode → TNode
  | TNode.mk d [] => TNode.mk d []
  | TNode.mk _ (c :: _) => firstLeaf c

/-- The set_spectrum method (Widgets.py lines 206 to 221) as called during
population, with name=None so the label is unchanged: store the buffers,
the internal background and the shift, and mark the item loaded. -/
def setSpectrum (d : NData) (xv : Val) (yv : Val) (bgv : Val) (sh : ℚ) : NData :=
  { d with x := xv, y := yv, internalBg := bgv, shift := sh, isLoaded := true }

/-- A freshly constructed SpectrumTreeItem child (Widgets.py lines 31 to
56) sharing the path of its file parent: unset buffers, internal
background 0, external background the integer 0, shift 0, not loaded. -/
def newChild (cnt : Nat) (lab : String) (cn : Option Nat) : TNode :=
  TNode.mk
    { nid := cnt, label := lab, contentNum := cn, isContent := true, isFile := true,
      x := Val.pynone, y := Val.pynone, internalBg := Val.scl 0,
      externalBg := ExtBg.val (Val.scl 0), shift := 0, isLoaded := false, errIcon := false }
    []

/-- The intensity data of a loader dataset: a 1-D array, or a 2-D array
given as rows together with its second shape entry (the channel count). -/
inductive YData where
  | one (l : List ℚ)
  | two (rows : List (List ℚ)) (m : Nat)
deriving DecidableEq, Repr

/-- One dataset as returned by the external loader (SpectraDataset in
file_handling.py): a name, a 1-D axis, intensity data and a background. -/
structure Dataset where
  name : String
  x : List ℚ
  y : YData
  background : Val
deriving DecidableEq, Repr

/-- The column y[:, i] of a 2-D intensity array given by rows. -/
def colOf (rows : List (List ℚ)) (i : Nat) : List ℚ :=
  rows.map (fun r => r.getD i 0)

/-- The dict built by load_data (Widgets.py line 370) mapping each label of
a pre-existing child to that child, queried by dataset name; a dict
comprehension keeps the last child with a given label.  The result is the
identity of the matched child, if any. -/
def lookupLab (cs : List TNode) (nm : String) : Option Nat :=
  ((cs.filter (fun c => c.data.label = nm)).getLast?).map (fun c => c.data.nid)

/-- The dict built by _populate_with_data (Widgets.py line 394) mapping
each content number of a pre-existing child to that child, queried by
channel index. -/
def lookupNum (cs : List TNode) (i : Nat) : Option Nat :=
  ((cs.filter (fun c => c.data.contentNum = some i)).getLast?).map (fun c => c.data.nid)

/-- Mutation of the single live child with a given identity inside the
current child list, threading the fresh-identity counter; the other list
entries are untouched. -/
def mapAtNid (f : Nat → TNode → Nat × TNode) (k : Nat) (cnt : Nat) :
    List TNode → Nat × List TNode
  | [] => (cnt, [])
  | c :: rest =>
    if c.data.nid = k then
      let p := f cnt c
      (p.1, p.2 :: rest)
    else
      let p := mapAtNid f k cnt rest
      (p.1, c :: p.2)

/-- One channel child update in the 2-D branch of _populate_with_data
(Widgets.py lines 400 to 406): set_spectrum with the channel column and
the dataset background, then set_background(None). -/
def popChannel (sh : ℚ) (ds : Dataset) (colY : List ℚ) : TNode → TNode
  | TNode.mk cd ccs =>
    clearBg (TNode.mk (setSpectrum cd (Val.arr ds.x) (Val.arr colY) ds.background sh) ccs)

/-- The loop of the 2-D branch of _populate_with_data over the channel
indices: an index matched in the dict of pre-existing children updates
that child in place; an unmatched index appends a fresh child (labelled by
the dataset name unless an explicit label was passed) and updates it. -/
def popLoop2 (sh : ℚ) (lab : Option String) (ds : Dataset) (rows : List (List ℚ))
    (cs0 : List TNode) : Nat → List TNode → List Nat → Nat × List TNode
  | cnt, kids, [] => (cnt, kids)
  | cnt, kids, i :: rest =>
    match lookupNum cs0 i with
    | some k =>
      let p := mapAtNid (fun n c => (n, popChannel sh ds (colOf rows i) c)) k cnt kids
      popLoop2 sh lab ds rows cs0 p.1 p.2 rest
    | none =>
      let c := newChild cnt (lab.getD ds.name) (some i)
      popLoop2 sh lab ds rows cs0 (cnt + 1) (kids ++ [popChannel sh ds (colOf rows i) c]) rest

/-- The _populate_with_data method (Widgets.py lines 381 to 411).  For 2-D
intensity data one child per channel is updated or created and the item is
marked loaded; for 1-D data the item itself is retroactively made a
content leaf and receives the buffers directly.  In both branches the call
ends with set_background(None) on the item. -/
def populateWith (sh : ℚ) (lab : Option String) (cnt : Nat) (t : TNode) (ds : Dataset) :
    Nat × TNode :=
  match t, ds.y with
  | TNode.mk d cs, YData.two rows m =>
    let p := popLoop2 sh lab ds rows cs cnt cs (List.range m)
    (p.1, clearBg (TNode.mk { d with isLoaded := true } p.2))
  | TNode.mk d cs, YData.one l =>
    (cnt,
      clearBg (TNode.mk
        (setSpectrum { d with isContent := true } (Val.arr ds.x) (Val.arr l) ds.background sh)
        cs))

/-- The outcome of the external loader for one file: an ordered dataset
list, or a failure to interpret the file. -/
inductive LoadResult where
  | ok (ds : List Dataset)
  | err

/-- The Python exceptions that can escape load_data: the UnboundLocalError
raised on the unassigned datasets variable after a caught loader failure,
or the IndexError on an empty dataset list. -/
inductive Exc where
  | unboundLocal
  | indexErr
deriving DecidableEq, Repr

/-- The loop of load_data over a dataset list of length two or more
(Widgets.py lines 369 to 376): a dataset whose name matches a label in the
dict of pre-existing children repopulates that child in place; otherwise a
fresh child labelled by the dataset name is appended and populated. -/
def loadLoop (sh : ℚ) (cs0 : List TNode) : Nat → List TNode → List Dataset → Nat × List TNode
  | cnt, kids, [] => (cnt, kids)
  | cnt, kids, ds :: rest =>
    match lookupLab cs0 ds.name with
    | some k =>
      let p := mapAtNid (fun n c => populateWith sh (some "spectrum") n c ds) k cnt kids
      loadLoop sh cs0 p.1 p.2 rest
    | none =>
      let c := newChild cnt ds.name none
      let p := populateWith sh (some "spectrum") (cnt + 1) c ds
      loadLoop sh cs0 p.1 (kids ++ [p.2]) rest

/-- Mark the root item loaded (the final assignment of load_data). -/
def markLoaded : TNode → TNode
  | TNode.mk d cs => TNode.mk { d with isLoaded := true } cs

/-- The load_data method (Widgets.py lines 358 to 379).  A non-file item
does nothing.  On a loader failure the error icon is set and the
subsequent read of the unassigned datasets variable raises
UnboundLocalError, leaving the item unloaded.  An empty dataset list
raises IndexError at datasets[0].  Otherwise a list of two or more
datasets populates one child per dataset and a single dataset populates
the item itself; in both cases the item is finally marked loaded. -/
def loadData (sh : ℚ) (cnt : Nat) (t : TNode) (lr : LoadResult) : Nat × TNode × Option Exc :=
  match t with
  | TNode.mk d cs =>
    if d.isFile = true then
      match lr with
      | LoadResult.err => (cnt, TNode.mk { d with errIcon := true } cs, some Exc.unboundLocal)
      | LoadResult.ok dss =>
        if 1 < dss.length then
          let p := loadLoop sh cs cnt cs dss
          (p.1, TNode.mk { d with isLoaded := true } p.2, none)
        else
          match dss with
          | [] => (cnt, TNode.mk d cs, some Exc.indexErr)
          | d0 :: _ =>
            let p := populateWith sh (some "spectrum") cnt (TNode.mk d cs) d0
            (p.1, markLoaded p.2, none)
    else (cnt, TNode.mk d cs, none)

/-- The plot_filetree_item method of the main window (toolbox.py lines 447
to 457): an unloaded file item is loaded inside a try block catching
AttributeError, UnboundLocalError and EncodingWarning; a caught failure
only sets a status message and returns, a success sets a completion
message.  The final add_to_graph call is presentation and not modelled.
The last component carries an exception escaping the method. -/
def plotFiletreeItem (sh : ℚ) (cnt : Nat) (t : TNode) (lr : LoadResult) :
    Nat × TNode × Option String × Option Exc :=
  if t.data.isLoaded = false ∧ t.data.isFile = true then
    match loadData sh cnt t lr with
    | (cnt2, t2, some Exc.unboundLocal) => (cnt2, t2, some "Could not load data", none)
    | (cnt2, t2, some e) => (cnt2, t2, none, some e)
    | (cnt2, t2, none) => (cnt2, t2, some "Loading file complete", none)
  else (cnt, t, none, none)

/-- The argument of a set_background call before resolution: None, a plain
value, or a live item reference. -/
inductive BgAr where
  | clear
  | val (v : Val)
  | ext (r : TNode)

/-- The set_background method including its load-and-descend prefix
(Widgets.py lines 223 to 286).  An external item that is not loaded is
first loaded through the loader (an exception escaping load_data escapes
the call, modelled by none); if it then has children the reference
descends to its first leaf.  The call returns the updated target together
with the loaded external item, if any. -/
def setBackground (σ : Arena) (cal : Option Cal) (sh : ℚ) (lr : LoadResult) (cnt : Nat)
    (t : TNode) (b : BgAr) : Option (Nat × TNode × Option TNode) :=
  match b with
  | BgAr.ext r =>
    if r.data.isLoaded = false then
      match loadData sh cnt r lr with
      | (_, _, some _) => none
      | (cnt2, r2, none) =>
        let rb := firstLeaf r2
        (setBgR σ cal (BgR.extd rb.data) t).map (fun t2 => (cnt2, t2, some r2))
    else
      (setBgR σ cal (BgR.extd r.data) t).map (fun t2 => (cnt, t2, some r))
  | BgAr.clear => (setBgR σ cal BgR.clear t).map (fun t2 => (cnt, t2, none))
  | BgAr.val v => (setBgR σ cal (BgR.val v) t).map (fun t2 => (cnt, t2, none))

/-- The remove method (Widgets.py lines 317 to 327) acting on a forest: the
subtree rooted at the item with the given identity is detached from its
parent (or from the top level), and nothing else changes; in particular no
external-background field of any remaining item is written.  The
deactivation, graph removal and the recursive clear_children of the
top-level branch only detach the same subtree and touch presentation
state. -/
def removeNode (t : Nat) : List TNode → List TNode
  | [] => []
  | (TNode.mk d cs) :: rest =>
    if d.nid = t then rest
    else (TNode.mk d (removeNode t cs)) :: removeNode t rest

mutual
/-- The identities of all items of a subtree. -/
def subIds : TNode → List Nat
  | TNode.mk d cs => d.nid :: subIdsL cs

/-- The identities of all items of a forest. -/
def subIdsL : List TNode → List Nat
  | [] => []
  | c :: rest => subIds c ++ subIdsL rest
end

mutual
/-- The per-item data of all items of a subtree. -/
def allDatas : TNode → List NData
  | TNode.mk d cs => d :: allDatasL cs

/-- The per-item data of all items of a forest. -/
def allDatasL : List TNode → List NData
  | [] => []
  | c :: rest => allDatas c ++ allDatasL rest
end

/-- A tree carrying only the checked flag, for the state-propagation
predicates. -/
inductive CTree where
  | mk (checked : Bool) (children : List CTree)

mutual
/-- The _is_checked_with_descendants method (Widgets.py lines 58 to 60):
the own flag for an item without children, else the OR over the recursive
values of the children; the own flag is OR-ed onto the answer. -/
def isCheckedWithDescendants : CTree → Bool
  | CTree.mk c cs => (if cs.isEmpty then c else anyCheckedDesc cs) || c

/-- The membership test True in the list comprehension over the children:
the OR of the recursive values. -/
def anyCheckedDesc : List CTree → Bool
  | [] => false
  | t :: rest => isCheckedWithDescendants t || anyCheckedDesc rest
end

/-- The _is_checked_with_ancestors method (Widgets.py lines 62 to 65) on an
item whose chain of ancestor checked flags is given innermost first: the
own flag when there is no parent, else the recursive value of the parent;
the own flag is OR-ed onto the answer. -/
def isCheckedWithAncestors : List Bool → Bool → Bool
  | [], c => c || c
  | p :: anc, c => (isCheckedWithAncestors anc p) || c

/-- The 1-D intensity list of a dataset (the claims below use it only on
1-D datasets). -/
def oneList : YData → List ℚ
  | YData.one l => l
  | YData.two _ _ => []

/-- The repopulation applied by the load_data loop to one matched or fresh
child: _populate_with_data with the label argument spectrum.  For a 1-D
dataset it does not consume fresh identities, so the counter argument 0 is
immaterial. -/
def pop1 (sh : ℚ) (c : TNode) (ds : Dataset) : TNode :=
  (populateWith sh (some "spectrum") 0 c ds).2

/-- A default item state shared by the concrete examples below: a file item
with unset buffers, internal background 0 and external background the
initial integer 0. -/
def dBase : NData :=
  { nid := 0, label := "f", contentNum := none, isContent := false,
    isFile := true, x := Val.pynone, y := Val.pynone, internalBg := Val.scl 0,
    externalBg := ExtBg.val (Val.scl 0), shift := 0, isLoaded := false, errIcon := false }

/-- A loaded leaf whose external background is the item itself and whose
internal background differs from the raw intensity. -/
def dC1 : NData :=
  { dBase with
    y := Val.arr [3], x := Val.arr [1], internalBg := Val.arr [1],
    externalBg := ExtBg.ref 0, isLoaded := true }

/-- A heap whose every identity carries the self-referential leaf. -/
def arenaC1 : Arena := fun _ => dC1

/-- A loaded leaf with a two-element intensity buffer. -/
def dC3 : NData :=
  { dBase with y := Val.arr [1, 2], x := Val.arr [1, 2], isLoaded := true }

/-- A leaf whose external background references another item. -/
def dC4main : NData :=
  { dBase with
    nid := 0, y := Val.arr [1, 2], x := Val.arr [1, 2],
    externalBg := ExtBg.ref 1, isLoaded := true }

/-- A referenced item whose raw intensity is the 0-dimensional scalar 5, so
that its external contribution is a 0-dimensional scalar. -/
def dC4other : NData :=
  { dBase with
    nid := 1, y := Val.scl 5, x := Val.scl 1, isLoaded := true }

/-- The heap holding the two items of the C4 example. -/
def arenaC4 : Arena := fun j => if j = 1 then dC4other else dC4main

/-- A loaded leaf with a one-element buffer used by the shift example. -/
def dC6 : NData :=
  { dBase with y := Val.arr [4], x := Val.arr [1], isLoaded := true }

/-- The heap holding the C6 leaf. -/
def arenaC6 : Arena := fun _ => dC6

/-- The identity map as a calibration function. -/
def calId : Cal := fun q => q

/-- A leaf whose raw component is 7 at the single index and whose shifted
axis value is 2 there. -/
def dC7 : NData :=
  { dBase with y := Val.arr [7], x := Val.arr [2], isLoaded := true }

/-- A calibration that vanishes at 2. -/
def calC7 : Cal := fun q => q - 2

/-- A parent container for the removal example. -/
def dA9 : NData := { dBase with nid := 0, label := "dir" }

/-- A leaf holding an external-background reference to its sibling with
identity 2. -/
def dX9 : NData :=
  { dBase with
    nid := 1, label := "x", y := Val.arr [1, 2], x := Val.arr [1, 2],
    externalBg := ExtBg.ref 2, isLoaded := true }

/-- The sibling leaf that is removed. -/
def dY9 : NData :=
  { dBase with
    nid := 2, label := "y", y := Val.arr [1, 2], x := Val.arr [1, 2], isLoaded := true }

/-- The forest of the removal example: one container with two leaves. -/
def forestC9 : List TNode := [TNode.mk dA9 [TNode.mk dX9 [], TNode.mk dY9 []]]

/-- A populated child carrying a previously assigned external background
reference to the item with identity 9. -/
def dX2 : NData :=
  { dBase with
    nid := 1, label := "a", y := Val.arr [1, 2], x := Val.arr [1, 2],
    externalBg := ExtBg.ref 9, isLoaded := true }

/-- A second populated child. -/
def dY2 : NData :=
  { dBase with
    nid := 2, label := "b", y := Val.arr [1, 2], x := Val.arr [1, 2], isLoaded := true }

/-- A file item already populated with the two children. -/
def c2node : TNode := TNode.mk dBase [TNode.mk dX2 [], TNode.mk dY2 []]

/-- A reloaded dataset list with the same keys as the existing children. -/
def c2ds : List Dataset :=
  [⟨"a", [1, 2], YData.one [3, 4], Val.scl 0⟩,
   ⟨"b", [1, 2], YData.one [5, 6], Val.scl 0⟩]

/-- The expected data of a child freshly created and populated from a 1-D
dataset during load_data: a content leaf with the dataset buffers, a
cleared external background and the given fresh identity. -/
def popChildData (nid2 : Nat) (lab : String) (xs ys : List ℚ) (sh : ℚ) : NData :=
  { nid := nid2, label := lab, contentNum := none, isContent := true, isFile := true,
    x := Val.arr xs, y := Val.arr ys, internalBg := Val.scl 0,
    externalBg := ExtBg.val Val.pynone, shift := sh, isLoaded := true, errIcon := false }

/-- Computation rule of the data accessor. -/
@[simp] theorem TNode.data_mk (d : NData) (cs : List TNode) : (TNode.mk d cs).data = d := rfl

/-- Computation rule of the children accessor. -/
@[simp] theorem TNode.children_mk (d : NData) (cs : List TNode) :
    (TNode.mk d cs).children = cs := rfl

/-- Claim C1, counterexample: on a leaf with raw intensity (3), internal
background (1) and external background the item itself, the composed
background is the raw intensity (3), not the internal background (1), and
the effective intensity is (0), not raw minus internal = (2). -/
theorem C1_counterexample :
    bgOf arenaC1 0 = some (Val.arr [3]) ∧
    (arenaC1 0).internalBg = Val.arr [1] ∧
    ¬ bgOf arenaC1 0 = some ((arenaC1 0).internalBg) ∧
    yProp arenaC1 none 0 = some (Val.arr [0]) ∧
    vsub (arenaC1 0).y (arenaC1 0).internalBg = some (Val.arr [2]) := by
  have h1 : bgOf arenaC1 0 = some (Val.arr [3]) := rfl
  refine ⟨h1, rfl, by rw [h1]; norm_num [arenaC1, dC1, dBase], ?_, ?_⟩
  · norm_num [yProp, ndY, ndBg, arenaC1, dC1, dBase, vsub, vzip]
  · norm_num [arenaC1, dC1, dBase, vsub, vzip]

/-- Elementwise subtraction of a rational list from itself is the zero
list. -/
theorem zipWith_sub_self (l : List ℚ) :
    List.zipWith (fun a b => a - b) l l = l.map (fun _ => 0) := by
  induction l with
  | nil => rfl
  | cons a t ih => simp [ih]

/-- Claim C1, amended: for a leaf holding data whose external background
resolves to the item itself, the composed background equals the raw
intensity buffer (the internal background plays no role), and the
effective intensity with calibration disabled is identically zero. -/
theorem C1_self_reference_amended (σ : Arena) (i : Nat) (l : List ℚ)
    (h1 : (σ i).externalBg = ExtBg.ref i) (h2 : (σ i).nid = i)
    (h3 : (σ i).y = Val.arr l) :
    bgOf σ i = some ((σ i).y) ∧
    yProp σ none i = some (Val.arr (l.map (fun _ => 0))) := by
  have hbg : bgOf σ i = some ((σ i).y) := by
    simp [bgOf, ndBg, h1, h2]
  refine ⟨hbg, ?_⟩
  simp only [yProp, ndY]
  rw [show ndBg σ (σ i) = some ((σ i).y) from hbg]
  simp [h3, vsub, vzip, zipWith_sub_self]

/-- Witness for the amended claim C1 at the concrete self-referential
leaf. -/
theorem C1_self_reference_amended_witness :
    bgOf arenaC1 0 = some ((arenaC1 0).y) ∧
    yProp arenaC1 none 0 = some (Val.arr ([(3 : ℚ)].map (fun _ => 0))) :=
  C1_self_reference_amended arenaC1 0 [3] rfl rfl rfl

/-- Claim C3: at a leaf, an attempted background assignment whose
contributed value has a shape that neither equals the shape of the raw
intensity nor is 0-dimensional returns the leaf unchanged (internal
background, external background and hence every derived signal are as
before) and raises no exception. -/
theorem C3_shape_rejection (σ : Arena) (cal : Option Cal) (d : NData) (b : BgR) (v : Val)
    (hc : contribOf σ cal b = some v)
    (hs : ¬ (npShape v = npShape d.y ∨ (npShape v).length = 0)) :
    setBgR σ cal b (TNode.mk d []) = some (TNode.mk d []) := by
  rw [setBgR, hc]
  exact if_pos hs

/-- Witness for claim C3: assigning a three-element background to a
two-element leaf is rejected with no state change. -/
theorem C3_shape_rejection_witness :
    setBgR (fun _ => dC3) none (BgR.val (Val.arr [1, 2, 3])) (TNode.mk dC3 [])
      = some (TNode.mk dC3 []) :=
  C3_shape_rejection (fun _ => dC3) none dC3 (BgR.val (Val.arr [1, 2, 3]))
    (Val.arr [1, 2, 3]) rfl (by decide)

/-- Claim C4, evaluation at the failing input: the external contribution of
the referenced item is the 0-dimensional scalar 5, yet the composed
background is the internal background alone (0) instead of internal plus
contribution (5): the scalar branch of the source test,
np.shape(bg_ext) == 0, compares a tuple with the int 0 and never
accepts. -/
theorem C4_scalar_external_ignored :
    (arenaC4 0).externalBg = ExtBg.ref 1 ∧
    vsub (arenaC4 1).y (arenaC4 1).internalBg = some (Val.scl 5) ∧
    (npShape (Val.scl 5)).length = 0 ∧
    vadd (arenaC4 0).internalBg (Val.scl 5) = some (Val.scl 5) ∧
    bgOf arenaC4 0 = some ((arenaC4 0).internalBg) ∧
    ¬ bgOf arenaC4 0 = some (Val.scl 5) := by
  have h1 : bgOf arenaC4 0 = some (Val.scl 0) := rfl
  refine ⟨rfl, ?_, rfl, ?_, h1, by rw [h1]; norm_num⟩
  · norm_num [arenaC4, dC4other, dBase, vsub, vzip]
  · norm_num [arenaC4, dC4main, dBase, vadd, vzip]

/-- Claim C5: on a three-level chain A over B over C in which only C is
checked, the descendant predicate at A is true, the ancestor predicate at
C is true, the ancestor predicate at A is its own flag, the descendant
predicate at C is its own flag; and both predicates on an item with no
children (no parent) return exactly the own flag. -/
theorem C5_predicate_chain :
    isCheckedWithDescendants (CTree.mk false [CTree.mk false [CTree.mk true []]]) = true ∧
    isCheckedWithAncestors [false, false] true = true ∧
    isCheckedWithAncestors [] false = false ∧
    isCheckedWithDescendants (CTree.mk true []) = true ∧
    (∀ c : Bool, isCheckedWithDescendants (CTree.mk c []) = c) ∧
    (∀ c : Bool, isCheckedWithAncestors [] c = c) := by decide

/-- Claim C6, counterexample: with the identity calibration enabled, two
evaluations of the effective signal that differ only in the shift value
give different intensity sequences (4) versus (2), because the calibration
is evaluated on the shifted axis. -/
theorem C6_counterexample :
    yProp (setShift arenaC6 0 0) (some calId) 0 = some (Val.arr [4]) ∧
    yProp (setShift arenaC6 0 1) (some calId) 0 = some (Val.arr [2]) ∧
    xProp (setShift arenaC6 0 0) 0 = some (Val.arr [1]) ∧
    xProp (setShift arenaC6 0 1) 0 = some (Val.arr [2]) := by
  refine ⟨?_, ?_, ?_, ?_⟩ <;>
    norm_num [yProp, xProp, ndY, ndBg, ndX, vsub, vadd, vzip, vmapC, sanDiv, fdivQ,
      nanToNum, setShift, Function.update, arenaC6, dC6, dBase, calId]

/-- Changing the shift of one item changes no field other than its shift:
the buffers, backgrounds and identity of every item are untouched. -/
theorem setShift_proj (σ : Arena) (i : Nat) (s : ℚ) (j : Nat) :
    ((setShift σ i s) j).y = (σ j).y ∧
    ((setShift σ i s) j).internalBg = (σ j).internalBg ∧
    ((setShift σ i s) j).externalBg = (σ j).externalBg ∧
    ((setShift σ i s) j).nid = (σ j).nid := by
  unfold setShift
  rw [Function.update_apply]
  split
  · next h => subst h; simp
  · simp

/-- The composed background of any item is invariant under a shift
change anywhere in the heap. -/
theorem ndBg_setShift (σ : Arena) (i : Nat) (s : ℚ) (j : Nat) :
    ndBg (setShift σ i s) ((setShift σ i s) j) = ndBg σ (σ j) := by
  obtain ⟨hy, hb, he, hn⟩ := setShift_proj σ i s j
  have harm : ∀ j2, vsub ((setShift σ i s) j2).y ((setShift σ i s) j2).internalBg
      = vsub (σ j2).y (σ j2).internalBg := by
    intro j2
    obtain ⟨hy2, hb2, _, _⟩ := setShift_proj σ i s j2
    rw [hy2, hb2]
  unfold ndBg
  rw [he, hn, hy, hb]
  simp only [harm]

/-- Claim C6, amended: the effective axis is the raw axis plus the shift
for every shift value, and with calibration disabled the effective
intensity is independent of the shift; with calibration enabled it is
divided by the calibration on the shifted axis and depends on the shift
(see the counterexample). -/
theorem C6_shift_amended (σ : Arena) (i : Nat) (s t : ℚ) :
    xProp (setShift σ i s) i = vadd ((σ i).x) (Val.scl s) ∧
    yProp (setShift σ i s) none i = yProp (setShift σ i t) none i := by
  constructor
  · unfold xProp ndX setShift
    rw [Function.update_apply]
    simp
  · have hs := setShift_proj σ i s i
    have ht := setShift_proj σ i t i
    simp only [yProp, ndY]
    rw [ndBg_setShift σ i s i, ndBg_setShift σ i t i, hs.1, ht.1]

/-- Dividing any finite element by a zero calibration value and sanitizing
yields exactly 0: the quotient is nan for a zero dividend and a signed
infinity otherwise, and every such value is mapped to 0. -/
theorem sanDiv_zero (a : ℚ) : sanDiv a 0 = 0 := by
  unfold sanDiv fdivQ
  split_ifs <;> simp_all [nanToNum]

/-- Indexing a zipWith at a position present in both lists yields the
function applied to the two elements. -/
theorem zipWith_getElem? (g : ℚ → ℚ → ℚ) :
    ∀ (as bs : List ℚ) (k : Nat) (a b : ℚ),
    as[k]? = some a → bs[k]? = some b →
    (List.zipWith g as bs)[k]? = some (g a b) := by
  intro as
  induction as with
  | nil => intro bs k a b h1 _; simp at h1
  | cons u us ih =>
    intro bs k a b h1 h2
    cases bs with
    | nil => simp at h2
    | cons w ws =>
      cases k with
      | zero =>
        simp only [List.getElem?_cons_zero, Option.some.injEq] at h1 h2
        simp [List.zipWith, h1, h2]
      | succ n =>
        simp only [List.getElem?_cons_succ] at h1 h2
        simpa [List.zipWith] using ih ws n a b h1 h2

/-- Claim C7: for a leaf with a calibration enabled, at every index where
the calibration evaluated on the shifted axis is zero, the corresponding
effective intensity element is exactly 0, whatever the raw component at
that index. -/
theorem C7_calibration_sanitization (σ : Arena) (f : Cal) (i k : Nat) (bv : Val)
    (l0 lx : List ℚ) (ak xk : ℚ)
    (hbg : ndBg σ (σ i) = some bv)
    (hy0 : vsub (σ i).y bv = some (Val.arr l0))
    (hx : ndX (σ i) = some (Val.arr lx))
    (hlen : l0.length = lx.length)
    (hak : l0[k]? = some ak)
    (hxk : lx[k]? = some xk)
    (hf : f xk = 0) :
    yProp σ (some f) i = some (Val.arr (List.zipWith sanDiv l0 (lx.map f))) ∧
    (List.zipWith sanDiv l0 (lx.map f))[k]? = some 0 := by
  constructor
  · simp only [yProp, ndY, hbg, hy0, hx, Option.bind_eq_bind, Option.some_bind, vmapC]
    simp [vzip, hlen]
  · have hmx : (lx.map f)[k]? = some (f xk) := by
      simp [List.getElem?_map, hxk]
    have := zipWith_getElem? sanDiv l0 (lx.map f) k ak (f xk) hak hmx
    rw [hf, sanDiv_zero] at this
    exact this

/-- Witness for claim C7 at the concrete leaf: the effective intensity at
the index of a vanishing calibration is exactly 0. -/
theorem C7_calibration_sanitization_witness :
    yProp (fun _ => dC7) (some calC7) 0
        = some (Val.arr (List.zipWith sanDiv [7] ([2].map calC7))) ∧
    (List.zipWith sanDiv [(7 : ℚ)] ([(2 : ℚ)].map calC7))[0]? = some 0 :=
  C7_calibration_sanitization (fun _ => dC7) calC7 0 0 (Val.scl 0) [7] [2] 7 2
    rfl (by norm_num [dC7, dBase, vsub, vzip]) (by norm_num [dC7, dBase, ndX, vadd, vzip])
    rfl rfl rfl (by norm_num [calC7])

/-- Claim C8: loading a file item through the main window when the loader
fails to interpret the file leaves the item unloaded, sets its error
icon, and the failure is handled inside the caller (a status message, no
escaping exception). -/
theorem C8_loader_failure (sh : ℚ) (cnt : Nat) (d : NData) (cs : List TNode)
    (h1 : d.isLoaded = false) (h2 : d.isFile = true) :
    plotFiletreeItem sh cnt (TNode.mk d cs) LoadResult.err
      = (cnt, TNode.mk { d with errIcon := true } cs, some "Could not load data", none) ∧
    ({ d with errIcon := true } : NData).isLoaded = false ∧
    ({ d with errIcon := true } : NData).errIcon = true := by
  refine ⟨?_, by simpa using h1, rfl⟩
  simp [plotFiletreeItem, loadData, TNode.data, h1, h2]

/-- Witness for claim C8 at a concrete unloaded file item. -/
theorem C8_loader_failure_witness :
    plotFiletreeItem 0 0 (TNode.mk dBase []) LoadResult.err
      = (0, TNode.mk { dBase with errIcon := true } [], some "Could not load data", none) ∧
    ({ dBase with errIcon := true } : NData).isLoaded = false ∧
    ({ dBase with errIcon := true } : NData).errIcon = true :=
  C8_loader_failure 0 0 dBase [] rfl rfl

/-- Claim C9, counterexample: after removing the item with identity 2, the
remaining leaf still holds an external-background reference to identity 2,
which lies in the removed subtree: removal detaches no cross-reference. -/
theorem C9_counterexample :
    removeNode 2 forestC9 = [TNode.mk dA9 [TNode.mk dX9 []]] ∧
    dX9.externalBg = ExtBg.ref 2 ∧
    2 ∈ subIds (TNode.mk dY9 []) ∧
    dX9 ∈ allDatasL (removeNode 2 forestC9) := by
  have h : removeNode 2 forestC9 = [TNode.mk dA9 [TNode.mk dX9 []]] := by
    simp [removeNode, forestC9, dA9, dX9, dY9, dBase]
  refine ⟨h, rfl, ?_, ?_⟩
  · simp [subIds, subIdsL, dY9, dBase]
  · rw [h]
    simp [allDatasL, allDatas]

/-- Claim C9, amended: removal detaches the subtree rooted at the removed
item and changes nothing else; in particular the per-item data (and so
every external-background field) of every remaining item is exactly what
it was before the removal, and references into the removed subtree are
left dangling rather than detached. -/
theorem C9_remove_amended (t : Nat) :
    ∀ (f : List TNode) (d : NData), d ∈ allDatasL (removeNode t f) → d ∈ allDatasL f
  | [], _, h => by rw [removeNode] at h; exact h
  | (TNode.mk nd cs) :: rest, d, h => by
    rw [removeNode] at h
    by_cases hnid : nd.nid = t
    · rw [if_pos hnid] at h
      simp only [allDatasL, allDatas, List.mem_append]
      exact Or.inr h
    · rw [if_neg hnid] at h
      simp only [allDatasL, allDatas, List.mem_append, List.mem_cons] at h ⊢
      rcases h with (h | h) | h
      · exact Or.inl (Or.inl h)
      · exact Or.inl (Or.inr (C9_remove_amended t cs d h))
      · exact Or.inr (C9_remove_amended t rest d h)

/-- Witness for the amended claim C9 at the concrete forest: the data of
the remaining leaf after the removal is among the data before it. -/
theorem C9_remove_amended_witness : dX9 ∈ allDatasL forestC9 :=
  C9_remove_amended 2 forestC9 dX9 (by simp [removeNode, forestC9, dA9, dX9, dY9,
    dBase, allDatasL, allDatas])

/-- Unfolding of _populate_with_data on a 1-D dataset: the item is made a
content leaf, receives the buffers and the dataset background via
set_spectrum, and the call ends with set_background(None). -/
theorem populateWith_one (sh : ℚ) (lab : Option String) (cnt : Nat) (cd : NData)
    (ccs : List TNode) (ds : Dataset) (l : List ℚ) (hy : ds.y = YData.one l) :
    populateWith sh lab cnt (TNode.mk cd ccs) ds
      = (cnt, clearBg (TNode.mk
          (setSpectrum { cd with isContent := true } (Val.arr ds.x) (Val.arr l)
            ds.background sh)
          ccs)) := by
  obtain ⟨nm, dx, dy, dbg⟩ := ds
  simp only at hy
  subst hy
  rfl

/-- The root data after set_background(None): only the external background
changes, to the object None. -/
theorem clearBg_data (d : NData) (cs : List TNode) :
    (clearBg (TNode.mk d cs)).data = { d with externalBg := ExtBg.val Val.pynone } := by
  cases cs <;> rfl

/-- The data of a child repopulated from a 1-D dataset: the buffers and the
internal background come from the dataset, the external background is
cleared, the identity and label are untouched. -/
theorem pop1_data (sh : ℚ) (cd : NData) (ccs : List TNode) (ds : Dataset) (l : List ℚ)
    (hy : ds.y = YData.one l) :
    (pop1 sh (TNode.mk cd ccs) ds).data
      = { setSpectrum { cd with isContent := true } (Val.arr ds.x) (Val.arr l)
            ds.background sh
          with externalBg := ExtBg.val Val.pynone } := by
  unfold pop1
  rw [populateWith_one sh (some "spectrum") 0 cd ccs ds l hy]
  exact clearBg_data _ _

/-- Updating the unique child with a given identity in a list that contains
it after a prefix free of that identity rewrites exactly that child. -/
theorem mapAtNid_append (f : Nat → TNode → Nat × TNode) (k cnt : Nat) :
    ∀ (pre : List TNode) (t : TNode) (suf : List TNode),
    t.data.nid = k → k ∉ pre.map (fun c => c.data.nid) →
    mapAtNid f k cnt (pre ++ t :: suf) = ((f cnt t).1, pre ++ (f cnt t).2 :: suf)
  | [], t, suf, ht, _ => by
    simp [mapAtNid, ht]
  | c :: pre, t, suf, ht, hpre => by
    have hc : ¬ c.data.nid = k := by
      simp only [List.map_cons, List.mem_cons] at hpre
      intro h
      exact hpre (Or.inl h.symm)
    have hpre2 : k ∉ pre.map (fun c => c.data.nid) := by
      simp only [List.map_cons, List.mem_cons] at hpre
      intro h
      exact hpre (Or.inr h)
    rw [List.cons_append, mapAtNid, if_neg hc,
      mapAtNid_append f k cnt pre t suf ht hpre2]
    rfl

/-- With pairwise distinct labels, the dict of children maps the label of
each child to that child itself. -/
theorem lookupLab_self : ∀ (cs : List TNode),
    (cs.map (fun c => c.data.label)).Nodup →
    ∀ c ∈ cs, lookupLab cs c.data.label = some c.data.nid := by
  intro cs
  induction cs with
  | nil => intro _ c hc; simp at hc
  | cons h rest ih =>
    intro hnd c hc
    simp only [List.map_cons, List.nodup_cons] at hnd
    obtain ⟨hnotin, hndr⟩ := hnd
    rcases List.mem_cons.mp hc with rfl | hcr
    · have hfr : rest.filter (fun x => x.data.label = c.data.label) = [] := by
        rw [List.filter_eq_nil_iff]
        intro x hx
        simp only [decide_eq_true_eq]
        intro hlab
        exact hnotin (hlab ▸ List.mem_map_of_mem _ hx)
      simp [lookupLab, List.filter_cons, hfr]
    · have hne : ¬ (h.data.label = c.data.label) := by
        intro he
        exact hnotin (he ▸ List.mem_map_of_mem _ hcr)
      have step : lookupLab (h :: rest) c.data.label = lookupLab rest c.data.label := by
        simp [lookupLab, List.filter_cons, hne]
      rw [step]
      exact ih hndr c hcr

/-- The loop of load_data over datasets whose names, in order, are the
labels of the yet-unprocessed children: each dataset repopulates its child
in place, the counter is unchanged and no child is created. -/
theorem loadLoop_spec (sh : ℚ) (cs0 : List TNode) :
    ∀ (dss : List Dataset) (done todo : List TNode) (cnt : Nat),
    todo.map (fun c => c.data.label) = dss.map Dataset.name →
    (∀ c ∈ todo, lookupLab cs0 c.data.label = some c.data.nid) →
    ((done ++ todo).map (fun c => c.data.nid)).Nodup →
    (∀ ds ∈ dss, ∃ l, ds.y = YData.one l) →
    loadLoop sh cs0 cnt (done ++ todo) dss
      = (cnt, done ++ List.zipWith (fun c ds => pop1 sh c ds) todo dss) := by
  intro dss
  induction dss with
  | nil =>
    intro done todo cnt hlab _ _ _
    have hm : todo.map (fun c => c.data.label) = [] := by simpa using hlab
    have h0 : todo = [] := List.map_eq_nil_iff.mp hm
    subst h0
    simp [loadLoop]
  | cons ds rest ih =>
    intro done todo cnt hlab hlook hnd h1d
    cases todo with
    | nil => simp at hlab
    | cons t todo2 =>
      simp only [List.map_cons, List.map_cons, List.cons.injEq] at hlab
      obtain ⟨hlt, hlrest⟩ := hlab
      obtain ⟨l, hl⟩ := h1d ds (List.mem_cons_self _ _)
      have hlook_t := hlook t (List.mem_cons_self _ _)
      have hnotdone : t.data.nid ∉ done.map (fun c => c.data.nid) := by
        rw [List.map_append, List.nodup_append] at hnd
        intro hmem
        exact hnd.2.2 hmem (by simp)
      obtain ⟨td, tcs⟩ := t
      have hf : populateWith sh (some "spectrum") cnt (TNode.mk td tcs) ds
          = (cnt, pop1 sh (TNode.mk td tcs) ds) := by
        rw [populateWith_one sh (some "spectrum") cnt td tcs ds l hl]
        unfold pop1
        rw [populateWith_one sh (some "spectrum") 0 td tcs ds l hl]
      have hnid_pop : (pop1 sh (TNode.mk td tcs) ds).data.nid = td.nid := by
        rw [pop1_data sh td tcs ds l hl]
        rfl
      rw [loadLoop, ← hlt, hlook_t]
      simp only
      rw [mapAtNid_append (fun n c => populateWith sh (some "spectrum") n c ds)
        (TNode.mk td tcs).data.nid cnt done (TNode.mk td tcs) todo2 rfl hnotdone]
      simp only [hf]
      have hregroup : done ++ pop1 sh (TNode.mk td tcs) ds :: todo2
          = (done ++ [pop1 sh (TNode.mk td tcs) ds]) ++ todo2 := by
        simp
      rw [hregroup]
      rw [ih (done ++ [pop1 sh (TNode.mk td tcs) ds]) todo2 cnt hlrest
        (fun c hc => hlook c (List.mem_cons_of_mem _ hc))
        (by
          have : ((done ++ [pop1 sh (TNode.mk td tcs) ds]) ++ todo2).map
              (fun c => c.data.nid)
              = (done ++ TNode.mk td tcs :: todo2).map (fun c => c.data.nid) := by
            simp [hnid_pop]
          rw [this]
          exact hnd)
        (fun d hd => h1d d (List.mem_cons_of_mem _ hd))]
      simp

/-- Projections of the repopulated child list: identities are preserved,
external backgrounds are cleared, buffers carry the new dataset values. -/
theorem zipWith_pop1_maps (sh : ℚ) :
    ∀ (cs : List TNode) (dss : List Dataset),
    cs.length = dss.length →
    (∀ ds ∈ dss, ∃ l, ds.y = YData.one l) →
    ((List.zipWith (fun c ds => pop1 sh c ds) cs dss).map (fun c => c.data.nid)
        = cs.map (fun c => c.data.nid)) ∧
    ((List.zipWith (fun c ds => pop1 sh c ds) cs dss).map (fun c => c.data.externalBg)
        = dss.map (fun _ => ExtBg.val Val.pynone)) ∧
    ((List.zipWith (fun c ds => pop1 sh c ds) cs dss).map (fun c => c.data.y)
        = dss.map (fun ds => Val.arr (oneList ds.y))) := by
  intro cs
  induction cs with
  | nil =>
    intro dss hlen _
    cases dss with
    | nil => simp
    | cons ds rest => simp at hlen
  | cons c cs2 ih =>
    intro dss hlen h1d
    cases dss with
    | nil => simp at hlen
    | cons ds rest =>
      obtain ⟨l, hl⟩ := h1d ds (List.mem_cons_self _ _)
      obtain ⟨cd, ccs⟩ := c
      have hd := pop1_data sh cd ccs ds l hl
      obtain ⟨ih1, ih2, ih3⟩ := ih rest (by simpa using hlen)
        (fun d hd2 => h1d d (List.mem_cons_of_mem _ hd2))
      refine ⟨?_, ?_, ?_⟩ <;>
        simp [List.zipWith, hd, ih1, ih2, ih3, oneList, hl, setSpectrum]

/-- Claim C2, amended: repopulating an already populated file item from a
dataset list with the same keys (here dataset names, matching the child
labels in order) preserves the identity of every existing child, creates
no additional child (the counter is unchanged and the child list keeps its
length and identities), and overwrites the child buffers in place with the
new values; however, a previously assigned external background on a child
does not survive: repopulation clears it to the object None. -/
theorem C2_reload_amended (sh : ℚ) (cnt : Nat) (d : NData) (cs : List TNode)
    (dss : List Dataset)
    (hf : d.isFile = true)
    (hlen2 : 1 < dss.length)
    (hkey : cs.map (fun c => c.data.label) = dss.map Dataset.name)
    (hndl : (cs.map (fun c => c.data.label)).Nodup)
    (hndn : (cs.map (fun c => c.data.nid)).Nodup)
    (h1d : ∀ ds ∈ dss, ∃ l, ds.y = YData.one l) :
    loadData sh cnt (TNode.mk d cs) (LoadResult.ok dss)
        = (cnt, TNode.mk { d with isLoaded := true }
            (List.zipWith (fun c ds => pop1 sh c ds) cs dss), none) ∧
    ((List.zipWith (fun c ds => pop1 sh c ds) cs dss).map (fun c => c.data.nid)
        = cs.map (fun c => c.data.nid)) ∧
    ((List.zipWith (fun c ds => pop1 sh c ds) cs dss).length = cs.length) ∧
    ((List.zipWith (fun c ds => pop1 sh c ds) cs dss).map (fun c => c.data.externalBg)
        = dss.map (fun _ => ExtBg.val Val.pynone)) ∧
    ((List.zipWith (fun c ds => pop1 sh c ds) cs dss).map (fun c => c.data.y)
        = dss.map (fun ds => Val.arr (oneList ds.y))) := by
  have hlen : cs.length = dss.length := by
    have := congrArg List.length hkey
    simpa using this
  obtain ⟨hm1, hm2, hm3⟩ := zipWith_pop1_maps sh cs dss hlen h1d
  have hloop := loadLoop_spec sh cs dss [] cs cnt hkey (lookupLab_self cs hndl)
    (by simpa using hndn) h1d
  simp only [List.nil_append] at hloop
  refine ⟨?_, hm1, ?_, hm2, hm3⟩
  · rw [loadData.eq_def]
    simp only [hf, if_true, if_pos hlen2, hloop]
  · have := congrArg List.length hm1
    simpa using this

/-- Claim C2, counterexample: reloading the populated file item from a
dataset list with the same keys preserves both child identities and
creates no child, yet the external background previously assigned to the
first child (a reference to identity 9) does not survive: it is cleared to
the object None. -/
theorem C2_counterexample :
    ((loadData 0 10 c2node (LoadResult.ok c2ds)).2.1.children.map (fun c => c.data.nid)
      = c2node.children.map (fun c => c.data.nid)) ∧
    (c2node.children.map (fun c => c.data.externalBg)
      = [ExtBg.ref 9, ExtBg.val (Val.scl 0)]) ∧
    ((loadData 0 10 c2node (LoadResult.ok c2ds)).2.1.children.map (fun c => c.data.externalBg)
      = [ExtBg.val Val.pynone, ExtBg.val Val.pynone]) ∧
    ¬ ExtBg.val Val.pynone = ExtBg.ref 9 :=
  ⟨rfl, rfl, by decide, by decide⟩

/-- Witness for the amended claim C2 at the concrete reload. -/
theorem C2_reload_amended_witness :
    loadData 0 10 (TNode.mk dBase [TNode.mk dX2 [], TNode.mk dY2 []]) (LoadResult.ok c2ds)
        = (10, TNode.mk { dBase with isLoaded := true }
            (List.zipWith (fun c ds => pop1 0 c ds) [TNode.mk dX2 [], TNode.mk dY2 []] c2ds),
            none) ∧
    ((List.zipWith (fun c ds => pop1 0 c ds) [TNode.mk dX2 [], TNode.mk dY2 []] c2ds).map
        (fun c => c.data.nid)
      = [TNode.mk dX2 [], TNode.mk dY2 []].map (fun c => c.data.nid)) ∧
    ((List.zipWith (fun c ds => pop1 0 c ds) [TNode.mk dX2 [], TNode.mk dY2 []] c2ds).length
      = [TNode.mk dX2 [], TNode.mk dY2 []].length) ∧
    ((List.zipWith (fun c ds => pop1 0 c ds) [TNode.mk dX2 [], TNode.mk dY2 []] c2ds).map
        (fun c => c.data.externalBg)
      = c2ds.map (fun _ => ExtBg.val Val.pynone)) ∧
    ((List.zipWith (fun c ds => pop1 0 c ds) [TNode.mk dX2 [], TNode.mk dY2 []] c2ds).map
        (fun c => c.data.y)
      = c2ds.map (fun ds => Val.arr (oneList ds.y))) :=
  C2_reload_amended 0 10 dBase [TNode.mk dX2 [], TNode.mk dY2 []] c2ds rfl (by decide)
    rfl (by decide) (by decide)
    (by
      intro ds hds
      simp only [c2ds, List.mem_cons, List.not_mem_nil, or_false] at hds
      rcases hds with rfl | rfl
      · exact ⟨[3, 4], rfl⟩
      · exact ⟨[5, 6], rfl⟩)

/-- Loading a fresh file item from two 1-D datasets creates two children
with consecutive fresh identities, populated from the datasets in order. -/
theorem loadData_fresh_two (sh : ℚ) (cnt : Nat) (dr : NData)
    (x1 x2 a b p q : ℚ) (s1 s2 : String) (h2 : dr.isFile = true) :
    loadData sh cnt (TNode.mk dr [])
        (LoadResult.ok [⟨s1, [x1, x2], YData.one [a, b], Val.scl 0⟩,
                        ⟨s2, [x1, x2], YData.one [p, q], Val.scl 0⟩])
      = (cnt + 2, TNode.mk { dr with isLoaded := true }
          [TNode.mk (popChildData cnt s1 [x1, x2] [a, b] sh) [],
           TNode.mk (popChildData (cnt + 1) s2 [x1, x2] [p, q] sh) []], none) := by
  rw [loadData.eq_def]
  simp only [h2, if_true]
  norm_num [loadLoop, lookupLab, newChild, populateWith, clearBg, setSpectrum,
    popChildData, mapAtNid]

/-- The external contribution of such a freshly populated child: its raw
intensity minus its internal background (0), with no calibration. -/
theorem contribOf_popChild (σ : Arena) (cnt : Nat) (s1 : String)
    (x1 x2 a b sh : ℚ) :
    contribOf σ none (BgR.extd (popChildData cnt s1 [x1, x2] [a, b] sh))
      = some (Val.arr [a, b]) := by
  simp [contribOf, ndY, ndBg, popChildData, vsub, vzip, npShape, pyEq]

/-- Claim C10: calling set_background on a leaf with a reference to a
not-yet-loaded file item first loads that item as part of the call, and
since the load produces children (two datasets here), the reference
actually installed as the external background of the leaf is the first
descendant leaf of the loaded item (the first new child, with the first
fresh identity), not the referenced item itself. -/
theorem C10_unloaded_external (σ : Arena) (sh : ℚ) (cnt : Nat) (dn dr : NData)
    (u v x1 x2 a b p q : ℚ) (s1 s2 : String)
    (h1 : dr.isLoaded = false) (h2 : dr.isFile = true)
    (h3 : dn.y = Val.arr [u, v]) (h4 : cnt ≠ dr.nid) :
    ∃ r2 : TNode,
      setBackground σ none sh
          (LoadResult.ok [⟨s1, [x1, x2], YData.one [a, b], Val.scl 0⟩,
                          ⟨s2, [x1, x2], YData.one [p, q], Val.scl 0⟩])
          cnt (TNode.mk dn []) (BgAr.ext (TNode.mk dr []))
        = some (cnt + 2, TNode.mk { dn with externalBg := ExtBg.ref cnt } [], some r2) ∧
      r2.data.isLoaded = true ∧
      r2.children.length = 2 ∧
      (firstLeaf r2).data.nid = cnt ∧
      ¬ (firstLeaf r2).data.nid = dr.nid ∧
      (firstLeaf r2).data.y = Val.arr [a, b] := by
  refine ⟨TNode.mk { dr with isLoaded := true }
      [TNode.mk (popChildData cnt s1 [x1, x2] [a, b] sh) [],
       TNode.mk (popChildData (cnt + 1) s2 [x1, x2] [p, q] sh) []],
    ?_, rfl, rfl, rfl, by simpa [popChildData] using h4, rfl⟩
  rw [setBackground.eq_def]
  simp only [TNode.data_mk, h1, if_true]
  rw [loadData_fresh_two sh cnt dr x1 x2 a b p q s1 s2 h2]
  simp only [firstLeaf, TNode.data_mk]
  rw [setBgR, contribOf_popChild σ cnt s1 x1 x2 a b sh]
  have hshape : npShape (Val.arr [a, b]) = npShape dn.y ∨
      (npShape (Val.arr [a, b])).length = 0 := Or.inl (by simp [npShape, h3])
  simp [hshape, popChildData]
  intro hA
  exact absurd (by simp [npShape, h3]) hA

/-- Witness for claim C10 at fully concrete inputs. -/
theorem C10_unloaded_external_witness :
    ∃ r2 : TNode,
      setBackground (fun _ => dBase) none 0
          (LoadResult.ok [⟨"s1", [1, 2], YData.one [3, 4], Val.scl 0⟩,
                          ⟨"s2", [1, 2], YData.one [5, 6], Val.scl 0⟩])
          7 (TNode.mk dC3 []) (BgAr.ext (TNode.mk dBase []))
        = some (7 + 2, TNode.mk { dC3 with externalBg := ExtBg.ref 7 } [], some r2) ∧
      r2.data.isLoaded = true ∧
      r2.children.length = 2 ∧
      (firstLeaf r2).data.nid = 7 ∧
      ¬ (firstLeaf r2).data.nid = dBase.nid ∧
      (firstLeaf r2).data.y = Val.arr [3, 4] :=
  C10_unloaded_external (fun _ => dBase) 0 7 dC3 dBase 1 2 1 2 3 4 5 6 "s1" "s2"
    rfl rfl rfl (by decide)

end OES
